import Mathlib

/-!
Verification of the windows-driver-input-mcp repository (src/rate.py,
src/backend.py, src/main.py) against its natural-language specification.

Shallow embedding conventions:
* Python floats are modelled as rationals (`ℚ`); the program only compares,
  clamps, and divides small configuration numbers, so exact rational
  arithmetic matches the intent of the float code.
* Python `int()` truncation toward zero on a number is `ratTrunc`.
* Wall-clock time (`time.monotonic()`) is passed explicitly as a `ℚ` value.
* Fallible Python code returns `Except PyErr`.
-/

namespace Rate

/-- `RateConfig` from src/rate.py: the mutable rate/motion configuration. -/
structure RateConfig where
  mouse_move_hz : ℚ := 120
  mouse_max_delta : ℤ := 60
  mouse_smooth : ℚ := 0
  clicks_per_sec : ℚ := 8
  keys_per_sec : ℚ := 12
  deriving DecidableEq, Repr

/-- The ephemeral last-event timestamps of `RateLimiter` (src/rate.py). -/
structure LimiterState where
  last_click : ℚ := 0
  last_key : ℚ := 0
  last_move : ℚ := 0
  deriving DecidableEq, Repr

/-- Python `int(q)` on a number: truncation toward zero. -/
def ratTrunc (q : ℚ) : ℤ := if 0 ≤ q then ⌊q⌋ else -⌊-q⌋

/-- The delta-clamping step of `RateLimiter.filter_target` (src/rate.py
lines 53-56): when `md > 0`, a component whose absolute value exceeds
`md` is replaced by `md` with the sign of the component. -/
def clampDelta (md d : ℤ) : ℤ :=
  if 0 < md then
    (if md < |d| then (if 0 < d then md else -md) else d)
  else d

/-- The smoothing step of `RateLimiter.filter_target` (src/rate.py lines
57-60): when `s > 0` the component becomes `int(d * (1.0 - s))`. -/
def smoothDelta (s : ℚ) (d : ℤ) : ℤ :=
  if 0 < s then ratTrunc ((d : ℚ) * (1 - s)) else d

/-- `RateLimiter.filter_target` (src/rate.py lines 49-61): clamp the delta
from `cur` to `target` by `mouse_max_delta`, shape it by `mouse_smooth`,
and return the next position. -/
def filter_target (cfg : RateConfig) (cur target : ℤ × ℤ) : ℤ × ℤ :=
  let dx := smoothDelta cfg.mouse_smooth (clampDelta cfg.mouse_max_delta (target.1 - cur.1))
  let dy := smoothDelta cfg.mouse_smooth (clampDelta cfg.mouse_max_delta (target.2 - cur.2))
  (cur.1 + dx, cur.2 + dy)

/-- `RateLimiter.time_until_click` (src/rate.py lines 25-28), with the
current monotonic time passed explicitly.  `0.001` is the exact rational
the float literal denotes. -/
def time_until_click (cfg : RateConfig) (st : LimiterState) (now : ℚ) : ℚ :=
  let min_dt := 1 / max cfg.clicks_per_sec (1/1000)
  let dt := now - st.last_click
  max 0 (min_dt - dt)

/-- `RateLimiter.time_until_key` (src/rate.py lines 33-36). -/
def time_until_key (cfg : RateConfig) (st : LimiterState) (now : ℚ) : ℚ :=
  let min_dt := 1 / max cfg.keys_per_sec (1/1000)
  let dt := now - st.last_key
  max 0 (min_dt - dt)

/-- `RateLimiter.time_until_move` (src/rate.py lines 41-44). -/
def time_until_move (cfg : RateConfig) (st : LimiterState) (now : ℚ) : ℚ :=
  let min_dt := 1 / max cfg.mouse_move_hz (1/1000)
  let dt := now - st.last_move
  max 0 (min_dt - dt)

/-- `RateLimiter.sleep_until_ready` (src/rate.py lines 63-75), modelled with
an idealized exact sleep: the call begins at monotonic time `now`, sleeps
for the computed deficit, and stamps the corresponding last-event field
with the completion time `now + deficit`.  Returns (slept duration, new
state). -/
def sleep_until_ready (cfg : RateConfig) (st : LimiterState) (kind : String)
    (now : ℚ) : ℚ × LimiterState :=
  if kind = "click" then
    let t := time_until_click cfg st now
    (t, { st with last_click := now + t })
  else if kind = "key" then
    let t := time_until_key cfg st now
    (t, { st with last_key := now + t })
  else if kind = "move" then
    let t := time_until_move cfg st now
    (t, { st with last_move := now + t })
  else (0, st)

/-- `_num` inside `rate_config` (src/main.py lines 927-933): an omitted
(`None`) argument keeps the current value; an argument the cast rejects
also keeps the current value, so both collapse to `Option.none` here. -/
def numArg {α : Type} (v : Option α) (cur : α) : α := v.getD cur

/-- The argument record of the `Input-RateLimiter-Config` tool
(`rate_config`, src/main.py lines 920-926); `none` stands for an omitted
or uncastable argument. -/
structure RateArgs where
  move_hz : Option ℚ := none
  max_delta : Option ℤ := none
  smooth : Option ℚ := none
  cps : Option ℚ := none
  kps : Option ℚ := none
  deriving DecidableEq, Repr

/-- `rate_config` (src/main.py lines 934-939): each field of the shared
configuration is re-clamped to its range, whether or not the corresponding
argument was supplied.  `0.98` denotes the rational `49/50`. -/
def rate_config (cfg : RateConfig) (a : RateArgs) : RateConfig :=
  { mouse_move_hz := max 15 (min 480 (numArg a.move_hz cfg.mouse_move_hz)),
    mouse_max_delta := max 1 (numArg a.max_delta cfg.mouse_max_delta),
    mouse_smooth := max 0 (min (49/50) (numArg a.smooth cfg.mouse_smooth)),
    clicks_per_sec := max 1 (min 60 (numArg a.cps cfg.clicks_per_sec)),
    keys_per_sec := max 1 (min 60 (numArg a.kps cfg.keys_per_sec)) }

/-! Helper lemmas about truncation and the two delta-shaping steps. -/

lemma abs_ratTrunc (q : ℚ) : |ratTrunc q| = ⌊|q|⌋ := by
  unfold ratTrunc
  by_cases h : 0 ≤ q
  · rw [if_pos h, abs_of_nonneg h, abs_of_nonneg (Int.floor_nonneg.2 h)]
  · push_neg at h
    rw [if_neg (not_le.2 h), abs_of_neg h, abs_neg,
      abs_of_nonneg (Int.floor_nonneg.2 (by linarith))]

lemma abs_ratTrunc_le {q : ℚ} {b : ℤ} (h : |q| ≤ (b : ℚ)) : |ratTrunc q| ≤ b := by
  rw [abs_ratTrunc]
  have := Int.floor_mono h
  simpa using this

lemma abs_clampDelta_le {md : ℤ} (hmd : 0 < md) (d : ℤ) : |clampDelta md d| ≤ md := by
  unfold clampDelta
  rw [if_pos hmd]
  by_cases h : md < |d|
  · rw [if_pos h]
    by_cases hd : 0 < d
    · rw [if_pos hd, abs_of_pos hmd]
    · rw [if_neg hd, abs_neg, abs_of_pos hmd]
  · rw [if_neg h]
    omega

lemma abs_smoothDelta_le {s : ℚ} (hs : s < 1) (d : ℤ) : |smoothDelta s d| ≤ |d| := by
  unfold smoothDelta
  by_cases h : 0 < s
  · rw [if_pos h]
    apply abs_ratTrunc_le
    rw [abs_mul]
    have h1 : |1 - s| = 1 - s := abs_of_nonneg (by linarith)
    rw [h1]
    calc |(d : ℚ)| * (1 - s) ≤ |(d : ℚ)| * 1 := by
          apply mul_le_mul_of_nonneg_left (by linarith) (abs_nonneg _)
      _ = |(d : ℚ)| := mul_one _
      _ = ((|d| : ℤ) : ℚ) := by push_cast; ring
  · rw [if_neg h]

lemma abs_smoothDelta_anti {s₁ s₂ : ℚ} (h0 : 0 ≤ s₁) (h12 : s₁ ≤ s₂) (h1 : s₂ < 1)
    (d : ℤ) : |smoothDelta s₂ d| ≤ |smoothDelta s₁ d| := by
  rcases lt_or_eq_of_le h0 with hpos | hzero
  · unfold smoothDelta
    rw [if_pos hpos, if_pos (lt_of_lt_of_le hpos h12)]
    rw [abs_ratTrunc, abs_ratTrunc]
    apply Int.floor_mono
    rw [abs_mul, abs_mul]
    apply mul_le_mul_of_nonneg_left _ (abs_nonneg _)
    rw [abs_of_nonneg (by linarith : (0:ℚ) ≤ 1 - s₂),
      abs_of_nonneg (by linarith : (0:ℚ) ≤ 1 - s₁)]
    linarith
  · have : smoothDelta s₁ d = d := by
      unfold smoothDelta
      rw [if_neg (by rw [← hzero]; exact lt_irrefl 0)]
    rw [this]
    exact abs_smoothDelta_le h1 d

/-- Generic deficit lemma for the fixed-window throttle: if the call starts
no earlier than the previous stamp, the completion time `now + deficit` is
at least `min_dt` after the previous stamp. -/
lemma min_dt_le_completion (m last now : ℚ) :
    m ≤ (now + max 0 (m - (now - last))) - last := by
  rcases le_total (m - (now - last)) 0 with hc | hc
  · rw [max_eq_left hc]; linarith
  · rw [max_eq_right hc]; linarith

lemma ratTrunc_intCast (n : ℤ) : ratTrunc (n : ℚ) = n := by
  unfold ratTrunc
  by_cases h : (0 : ℚ) ≤ (n : ℚ)
  · rw [if_pos h, Int.floor_intCast]
  · rw [if_neg h, ← Int.cast_neg, Int.floor_intCast, neg_neg]

/-- Sharp bound for the smoothing step after clamping: when `0 < md` and
`|d| ≤ md`, the truncated value `int(d * (1 - s))` stays within `md` for
every smoothing factor below `2 + 1/md` — below 1 the factor shrinks the
step, between 1 and 2 it flips the sign without growing the magnitude,
and only beyond `2 + 1/md` can the overshoot exceed the clamp. -/
lemma abs_smoothDelta_le_of_abs_le {md : ℤ} (hmd : 0 < md) {s : ℚ}
    (hs : s < 2 + 1 / (md : ℚ)) {d : ℤ} (hd : |d| ≤ md) :
    |smoothDelta s d| ≤ md := by
  unfold smoothDelta
  by_cases h : 0 < s
  · rw [if_pos h, abs_ratTrunc]
    have hmdq : (0 : ℚ) < (md : ℚ) := by exact_mod_cast hmd
    have habs : |(d : ℚ)| ≤ (md : ℚ) := by
      rw [← Int.cast_abs]
      exact_mod_cast hd
    have hlt : |(d : ℚ) * (1 - s)| < (md : ℚ) + 1 := by
      rw [abs_mul]
      rcases le_or_lt s 1 with h1 | h1
      · have hle : |1 - s| ≤ 1 := by
          rw [abs_of_nonneg (by linarith)]
          linarith
        calc |(d : ℚ)| * |1 - s| ≤ (md : ℚ) * 1 :=
              mul_le_mul habs hle (abs_nonneg _) (le_of_lt hmdq)
          _ < (md : ℚ) + 1 := by linarith
      · have habs1 : |1 - s| = s - 1 := by
          rw [abs_of_nonpos (by linarith)]
          ring
        rw [habs1]
        calc |(d : ℚ)| * (s - 1) ≤ (md : ℚ) * (s - 1) :=
              mul_le_mul_of_nonneg_right habs (by linarith)
          _ < (md : ℚ) * (1 + 1 / (md : ℚ)) :=
              mul_lt_mul_of_pos_left (by linarith) hmdq
          _ = (md : ℚ) + 1 := by field_simp
    have hfl : ⌊|(d : ℚ) * (1 - s)|⌋ < md + 1 := by
      apply Int.floor_lt.mpr
      push_cast
      exact hlt
    omega
  · rw [if_neg h]
    exact hd

/-- C1 counterexample, showing both failure modes of the unrestricted
claim.  First, with `mouse_max_delta = 0` (reachable via the
`WINDOWS_MCP_RATE_MAX_DELTA` environment variable) `filter_target` applies
no clamp at all: from `(0,0)` toward `(5,0)` the returned step is `(5,0)`
and `|5 - 0| ≤ 0` fails.  Second, even with a positive `mouse_max_delta`,
a smoothing factor at or beyond `2 + 1/md` (reachable via
`WINDOWS_MCP_RATE_SMOOTH`) makes `int(d * (1.0 - s))` overshoot past the
clamp: with `md = 10`, `s = 4`, the clamped delta 10 becomes
`int(10 * (-3)) = -30` and `|-30 - 0| ≤ 10` fails. -/
theorem C1_counterexample :
    (filter_target { mouse_max_delta := 0, mouse_smooth := 0 } (0, 0) (5, 0) = (5, 0) ∧
      ¬ (|(filter_target { mouse_max_delta := 0, mouse_smooth := 0 } (0, 0) (5, 0)).1 - 0| ≤
          ({ mouse_max_delta := 0, mouse_smooth := 0 } : RateConfig).mouse_max_delta)) ∧
    (filter_target { mouse_max_delta := 10, mouse_smooth := 4 } (0, 0) (100, 0) = (-30, 0) ∧
      ¬ (|(filter_target { mouse_max_delta := 10, mouse_smooth := 4 } (0, 0) (100, 0)).1 - 0| ≤
          ({ mouse_max_delta := 10, mouse_smooth := 4 } : RateConfig).mouse_max_delta)) := by
  have h1 : smoothDelta 4 10 = -30 := by
    unfold smoothDelta
    rw [if_pos (by norm_num : (0 : ℚ) < 4)]
    rw [show ((10 : ℤ) : ℚ) * (1 - 4) = ((-30 : ℤ) : ℚ) by push_cast; ring]
    exact ratTrunc_intCast (-30)
  have h2 : smoothDelta 4 0 = 0 := by
    unfold smoothDelta
    rw [if_pos (by norm_num : (0 : ℚ) < 4)]
    rw [show ((0 : ℤ) : ℚ) * (1 - 4) = ((0 : ℤ) : ℚ) by push_cast; ring]
    exact ratTrunc_intCast 0
  have hval : filter_target { mouse_max_delta := 10, mouse_smooth := 4 } (0, 0) (100, 0) =
      (-30, 0) := by
    simp only [filter_target]
    norm_num [clampDelta, h1, h2]
  refine ⟨by decide, hval, ?_⟩
  rw [hval]
  decide

/-- C1 (amended): whenever the configured maximum delta `md` is positive
and the smoothing factor is below `2 + 1/md`, the step returned by
`filter_target` never exceeds the configured bound in either axis; this
threshold is sharp, as the counterexample's second part shows. -/
theorem C1_clamped_step_bounded :
    ∀ (cfg : RateConfig) (cx cy tx ty : ℤ),
    0 < cfg.mouse_max_delta →
    cfg.mouse_smooth < 2 + 1 / (cfg.mouse_max_delta : ℚ) →
    |(filter_target cfg (cx, cy) (tx, ty)).1 - cx| ≤ cfg.mouse_max_delta ∧
    |(filter_target cfg (cx, cy) (tx, ty)).2 - cy| ≤ cfg.mouse_max_delta := by
  intro cfg cx cy tx ty hmd hs
  unfold filter_target
  constructor
  · simp only [add_sub_cancel_left]
    exact abs_smoothDelta_le_of_abs_le hmd hs (abs_clampDelta_le hmd _)
  · simp only [add_sub_cancel_left]
    exact abs_smoothDelta_le_of_abs_le hmd hs (abs_clampDelta_le hmd _)

/-- Witness for C1: the default configuration (`max_delta = 60`,
`smooth = 0`) at `cur = (0,0)`, `target = (100,7)`. -/
theorem C1_witness :
    |(filter_target {} (0, 0) (100, 7)).1 - 0| ≤ (60 : ℤ) ∧
    |(filter_target {} (0, 0) (100, 7)).2 - 0| ≤ (60 : ℤ) :=
  C1_clamped_step_bounded {} 0 0 100 7 (by decide) (by norm_num)

/-- C3: for a fixed current position, target, and maximum delta, the
magnitude of the shaped delta produced by `filter_target` is monotonically
non-increasing in the smoothing factor, in each axis, for factors in
`[0, 1)`. -/
theorem C3_smoothing_monotone :
    ∀ (cfg : RateConfig) (s₁ s₂ : ℚ) (cx cy tx ty : ℤ),
    0 ≤ s₁ → s₁ ≤ s₂ → s₂ < 1 →
    |(filter_target { cfg with mouse_smooth := s₂ } (cx, cy) (tx, ty)).1 - cx| ≤
      |(filter_target { cfg with mouse_smooth := s₁ } (cx, cy) (tx, ty)).1 - cx| ∧
    |(filter_target { cfg with mouse_smooth := s₂ } (cx, cy) (tx, ty)).2 - cy| ≤
      |(filter_target { cfg with mouse_smooth := s₁ } (cx, cy) (tx, ty)).2 - cy| := by
  intro cfg s₁ s₂ cx cy tx ty h0 h12 h1
  unfold filter_target
  simp only [add_sub_cancel_left]
  exact ⟨abs_smoothDelta_anti h0 h12 h1 _, abs_smoothDelta_anti h0 h12 h1 _⟩

/-- Witness for C3: default configuration, factors 1/4 ≤ 1/2, from `(0,0)`
toward `(10,3)`. -/
theorem C3_witness :
    |(filter_target { mouse_smooth := 1/2 } (0, 0) (10, 3)).1 - 0| ≤
      |(filter_target { mouse_smooth := 1/4 } (0, 0) (10, 3)).1 - 0| ∧
    |(filter_target { mouse_smooth := 1/2 } (0, 0) (10, 3)).2 - 0| ≤
      |(filter_target { mouse_smooth := 1/4 } (0, 0) (10, 3)).2 - 0| :=
  C3_smoothing_monotone {} (1/4) (1/2) 0 0 10 3 (by norm_num) (by norm_num) (by norm_num)

/-- C2 counterexample: with `clicks_per_sec = 1/2000` the guarded interval
is `1/max(1/2000, 0.001) = 1000`, not the reciprocal `2000`: starting from
a stamp at time 0, a call at time 1000 completes and stamps at 1000, so the
two consecutive completions are separated by less than `1/rate`. -/
theorem C2_counterexample :
    ({} : LimiterState).last_click ≤ (1000 : ℚ) ∧
    (sleep_until_ready { clicks_per_sec := 1/2000 } {} "click" 1000).2.last_click -
        ({} : LimiterState).last_click < 1 / ((1 : ℚ)/2000) := by
  have hred : (sleep_until_ready { clicks_per_sec := 1/2000 } {} "click" 1000).2.last_click
      = 1000 + time_until_click { clicks_per_sec := 1/2000 } {} 1000 := rfl
  have hmax : max ((1:ℚ)/2000) (1/1000) = 1/1000 := max_eq_right (by norm_num)
  have hzero : time_until_click { clicks_per_sec := 1/2000 } {} 1000 = 0 := by
    unfold time_until_click
    rw [show ({ clicks_per_sec := 1/2000 } : RateConfig).clicks_per_sec = 1/2000 from rfl,
      show ({} : LimiterState).last_click = 0 from rfl, hmax]
    norm_num
  rw [hred, hzero, show ({} : LimiterState).last_click = 0 from rfl]
  norm_num

/-- C2 (amended): for every kind, if a call to `sleep_until_ready` starts no
earlier than the previous stamp of that kind, the new stamp is at least
`1/max(rate, 0.001)` after the previous one; in particular at least the
reciprocal `1/rate` whenever the configured rate is at least `0.001`. -/
theorem C2_consecutive_events_separated :
    ∀ (cfg : RateConfig) (st : LimiterState) (now : ℚ),
    (st.last_click ≤ now →
      1 / max cfg.clicks_per_sec (1/1000) ≤
        (sleep_until_ready cfg st "click" now).2.last_click - st.last_click ∧
      (1/1000 ≤ cfg.clicks_per_sec →
        1 / cfg.clicks_per_sec ≤
          (sleep_until_ready cfg st "click" now).2.last_click - st.last_click)) ∧
    (st.last_key ≤ now →
      1 / max cfg.keys_per_sec (1/1000) ≤
        (sleep_until_ready cfg st "key" now).2.last_key - st.last_key ∧
      (1/1000 ≤ cfg.keys_per_sec →
        1 / cfg.keys_per_sec ≤
          (sleep_until_ready cfg st "key" now).2.last_key - st.last_key)) ∧
    (st.last_move ≤ now →
      1 / max cfg.mouse_move_hz (1/1000) ≤
        (sleep_until_ready cfg st "move" now).2.last_move - st.last_move ∧
      (1/1000 ≤ cfg.mouse_move_hz →
        1 / cfg.mouse_move_hz ≤
          (sleep_until_ready cfg st "move" now).2.last_move - st.last_move)) := by
  intro cfg st now
  refine ⟨fun _ => ?_, fun _ => ?_, fun _ => ?_⟩
  · have base : 1 / max cfg.clicks_per_sec (1/1000) ≤
        (sleep_until_ready cfg st "click" now).2.last_click - st.last_click :=
      min_dt_le_completion (1 / max cfg.clicks_per_sec (1/1000)) st.last_click now
    refine ⟨base, fun hr => ?_⟩
    rw [show (1 : ℚ) / cfg.clicks_per_sec = 1 / max cfg.clicks_per_sec (1/1000) from by
      rw [max_eq_left hr]]
    exact base
  · have base : 1 / max cfg.keys_per_sec (1/1000) ≤
        (sleep_until_ready cfg st "key" now).2.last_key - st.last_key :=
      min_dt_le_completion (1 / max cfg.keys_per_sec (1/1000)) st.last_key now
    refine ⟨base, fun hr => ?_⟩
    rw [show (1 : ℚ) / cfg.keys_per_sec = 1 / max cfg.keys_per_sec (1/1000) from by
      rw [max_eq_left hr]]
    exact base
  · have base : 1 / max cfg.mouse_move_hz (1/1000) ≤
        (sleep_until_ready cfg st "move" now).2.last_move - st.last_move :=
      min_dt_le_completion (1 / max cfg.mouse_move_hz (1/1000)) st.last_move now
    refine ⟨base, fun hr => ?_⟩
    rw [show (1 : ℚ) / cfg.mouse_move_hz = 1 / max cfg.mouse_move_hz (1/1000) from by
      rw [max_eq_left hr]]
    exact base

/-- Witness for C2: the default configuration (`clicks_per_sec = 8`), first
call at time 0 after a stamp at time 0 is separated by at least `1/8`. -/
theorem C2_witness :
    1 / (8 : ℚ) ≤ (sleep_until_ready {} {} "click" 0).2.last_click -
      ({} : LimiterState).last_click :=
  ((C2_consecutive_events_separated {} {} 0).1 (by norm_num)).2 (by norm_num)

/-- C8: for every configuration (including zero or negative rates) and
every state and time, the three interval computations divide by a strictly
positive quantity (`max(rate, 0.001) > 0`, so no division by zero and a
finite value) and return a non-negative result. -/
theorem C8_rate_guard :
    ∀ (cfg : RateConfig) (st : LimiterState) (now : ℚ),
    0 < max cfg.clicks_per_sec (1/1000) ∧
    0 < max cfg.keys_per_sec (1/1000) ∧
    0 < max cfg.mouse_move_hz (1/1000) ∧
    0 ≤ time_until_click cfg st now ∧
    0 ≤ time_until_key cfg st now ∧
    0 ≤ time_until_move cfg st now := by
  intro cfg st now
  refine ⟨?_, ?_, ?_, le_max_left 0 _, le_max_left 0 _, le_max_left 0 _⟩
  all_goals exact lt_of_lt_of_le (by norm_num) (le_max_right _ _)

/-- C10: after every call to `rate_config`, whatever the previous
configuration (including out-of-range values set from environment
variables) and whatever mix of omitted or uncastable arguments, every field
of the resulting configuration lies in its documented range. -/
theorem C10_rate_config_clamped :
    ∀ (cfg : RateConfig) (a : RateArgs),
    15 ≤ (rate_config cfg a).mouse_move_hz ∧
    (rate_config cfg a).mouse_move_hz ≤ 480 ∧
    1 ≤ (rate_config cfg a).mouse_max_delta ∧
    0 ≤ (rate_config cfg a).mouse_smooth ∧
    (rate_config cfg a).mouse_smooth ≤ 49/50 ∧
    1 ≤ (rate_config cfg a).clicks_per_sec ∧
    (rate_config cfg a).clicks_per_sec ≤ 60 ∧
    1 ≤ (rate_config cfg a).keys_per_sec ∧
    (rate_config cfg a).keys_per_sec ≤ 60 := by
  intro cfg a
  unfold rate_config
  refine ⟨le_max_left _ _, max_le (by norm_num) (min_le_left _ _),
    le_max_left _ _, le_max_left _ _, max_le (by norm_num) (min_le_left _ _),
    le_max_left _ _, max_le (by norm_num) (min_le_left _ _),
    le_max_left _ _, max_le (by norm_num) (min_le_left _ _)⟩

end Rate

namespace Backend

/-- The on-disk prerequisite probes observed by `IBSimulatorAHKBackend.__init__`
(src/backend.py lines 127-132).  `ahk_found` is whether `_find_ahk_exe()`
located an AutoHotkey executable (it returns a path only when the file
exists), `inc_exists` whether `_ib_ahk_include_path()` found
`IbInputSimulator.ahk` (the constructor's extra `self._inc.exists()` check
re-reads the same filesystem state), and `dll_exists` whether
`_ib_dll_path()` found `IbInputSimulator.dll`. -/
structure AhkProbe where
  ahk_found : Bool
  inc_exists : Bool
  dll_exists : Bool
  deriving DecidableEq, Repr

/-- `IBSimulatorAHKBackend.__init__` readiness (src/backend.py line 132):
`self._ready = bool(self._ahk and self._inc and self._inc.exists() and
self._dll and self._dll.exists())`. -/
def ahk_ready (p : AhkProbe) : Bool :=
  p.ahk_found && p.inc_exists && p.dll_exists

/-- The outcomes observed by `IBSimulatorDLLBackend.__init__` (src/backend.py
lines 341-390): whether `_ib_dll_path()` found `IbInputSimulator.dll`,
whether loading the DLL and setting up its symbols raised no exception
(`load_ok`), and the return code of `IbSendInit` (`init_rc`). -/
structure DllProbe where
  dll_exists : Bool
  load_ok : Bool
  init_rc : Nat
  deriving DecidableEq, Repr

/-- `IBSimulatorDLLBackend.__init__` readiness (src/backend.py lines
346-390): `_ready` becomes true only after the DLL path exists, the DLL
loads without an exception, and `IbSendInit` returns 0. -/
def dll_ready (p : DllProbe) : Bool :=
  p.dll_exists && p.load_ok && (p.init_rc == 0)

/-- C4 counterexample: the DLL backend is not ready "exactly when
IbInputSimulator.dll exists" — with the DLL present and loadable but
`IbSendInit` returning 1 (e.g. no supported driver), `__init__` sets
`_ready = False` while the file exists. -/
theorem C4_counterexample :
    dll_ready { dll_exists := true, load_ok := true, init_rc := 1 } = false ∧
    ({ dll_exists := true, load_ok := true, init_rc := 1 } : DllProbe).dll_exists = true := by
  decide

/-- C4 (amended): `IBSimulatorAHKBackend` reports ready exactly when the
AutoHotkey executable, the `IbInputSimulator.ahk` include and the
`IbInputSimulator.dll` all exist; `IBSimulatorDLLBackend` reports ready
exactly when the DLL exists, loads without an exception, and `IbSendInit`
returns 0 — in particular DLL readiness still implies the file exists. -/
theorem C4_readiness_gating :
    ∀ (p : AhkProbe) (q : DllProbe),
    (ahk_ready p = true ↔
      p.ahk_found = true ∧ p.inc_exists = true ∧ p.dll_exists = true) ∧
    (dll_ready q = true ↔
      q.dll_exists = true ∧ q.load_ok = true ∧ q.init_rc = 0) ∧
    (dll_ready q = true → q.dll_exists = true) := by
  intro p q
  refine ⟨?_, ?_, ?_⟩
  · unfold ahk_ready
    simp [Bool.and_eq_true, and_assoc]
  · unfold dll_ready
    simp [Bool.and_eq_true, and_assoc]
  · intro h
    unfold dll_ready at h
    simp [Bool.and_eq_true] at h
    exact h.1.1

/-- The choice `_backend_from_env` returns (src/main.py lines 56-84). -/
inductive BackendChoice where
  | dll (p : DllProbe)
  | ahk (p : AhkProbe)
  deriving DecidableEq, Repr

/-- `backend.info().ready` of a constructed backend. -/
def BackendChoice.ready : BackendChoice → Bool
  | .dll p => dll_ready p
  | .ahk p => ahk_ready p

/-- `_backend_from_env` (src/main.py lines 56-84).  `preferred` is the
already-lowercased value of `WINDOWS_MCP_INPUT_BACKEND` (default
"ibsim-dll"; an empty environment value stays the empty string).  The
`RuntimeError` raises are modelled as `Except.error` with the source's
messages. -/
def backend_from_env (preferred : String) (dllp : DllProbe) (ahkp : AhkProbe) :
    Except String BackendChoice :=
  if preferred = "ibsim-dll" ∨ preferred = "ibsim" then
    if dll_ready dllp then .ok (.dll dllp)
    else if preferred = "ibsim-dll" then
      .error "IBSimulator DLL backend not ready. Check IbInputSimulator DLL files."
    else if ahk_ready ahkp then .ok (.ahk ahkp)
    else .error "No driver-level backend is ready (DLL/AHK)."
  else if preferred = "ibsim-ahk" then
    if ahk_ready ahkp then .ok (.ahk ahkp)
    else .error "IBSimulator AHK backend not ready. Install AutoHotkey v2 and include files."
  else .error "Unsupported WINDOWS_MCP_INPUT_BACKEND. Use ibsim-dll or ibsim-ahk."

/-- C5: `_backend_from_env` raises `RuntimeError` exactly when no backend in
the preference order selected by `WINDOWS_MCP_INPUT_BACKEND` is ready or
the backend name is unsupported ("ibsim" prefers the DLL backend and falls
back to AHK), and every non-raising call returns a backend whose
`info().ready` is true. -/
theorem C5_backend_startup_failure :
    ∀ (preferred : String) (dllp : DllProbe) (ahkp : AhkProbe),
    ((∃ e, backend_from_env preferred dllp ahkp = .error e) ↔
      ((preferred = "ibsim-dll" ∧ dll_ready dllp = false) ∨
       (preferred = "ibsim" ∧ dll_ready dllp = false ∧ ahk_ready ahkp = false) ∨
       (preferred = "ibsim-ahk" ∧ ahk_ready ahkp = false) ∨
       (preferred ≠ "ibsim-dll" ∧ preferred ≠ "ibsim" ∧ preferred ≠ "ibsim-ahk"))) ∧
    (∀ b, backend_from_env preferred dllp ahkp = .ok b → b.ready = true) := by
  intro preferred dllp ahkp
  unfold backend_from_env
  by_cases h1 : preferred = "ibsim-dll"
  · subst h1
    by_cases hd : dll_ready dllp
    · simp [hd, BackendChoice.ready]
    · simp [Bool.not_eq_true] at hd
      simp [hd]
  · by_cases h2 : preferred = "ibsim"
    · subst h2
      by_cases hd : dll_ready dllp
      · simp [hd, BackendChoice.ready]
      · simp [Bool.not_eq_true] at hd
        by_cases ha : ahk_ready ahkp
        · simp [hd, ha, BackendChoice.ready]
        · simp [Bool.not_eq_true] at ha
          simp [hd, ha]
    · by_cases h3 : preferred = "ibsim-ahk"
      · subst h3
        by_cases ha : ahk_ready ahkp
        · simp [ha, BackendChoice.ready]
        · simp [Bool.not_eq_true] at ha
          simp [ha]
      · simp [h1, h2, h3]

/-- Witness for C5: with the DLL prerequisites present and `IbSendInit`
succeeding, the default "ibsim-dll" selection returns a ready backend. -/
theorem C5_witness :
    BackendChoice.ready (.dll { dll_exists := true, load_ok := true, init_rc := 0 }) = true :=
  (C5_backend_startup_failure "ibsim-dll"
      { dll_exists := true, load_ok := true, init_rc := 0 }
      { ahk_found := false, inc_exists := false, dll_exists := false }).2
    (.dll { dll_exists := true, load_ok := true, init_rc := 0 }) rfl

end Backend

namespace Py

/-- Python runtime values that can reach the coercion helpers of
src/main.py.  Floats are modelled as exact rationals; dict entries are
restricted to string keys (entries with non-string keys can never match the
`"x" in value` membership tests and are irrelevant to the coercions). -/
inductive PyVal where
  | int (n : ℤ)
  | float (q : ℚ)
  | bool (b : Bool)
  | str (s : String)
  | list (xs : List PyVal)
  | tuple (xs : List PyVal)
  | dict (kvs : List (String × PyVal))
  | none

/-- The Python exceptions distinguished by the coercion code paths. -/
inductive PyErr where
  | valueError (msg : String)
  | typeError (msg : String)
  deriving DecidableEq, Repr

/-- Python ASCII whitespace stripped by `str.strip()` and accepted by
`int()` (the unicode whitespace Python also strips does not occur in the
claims). -/
def pySpace (c : Char) : Bool :=
  c = ' ' || c = '\t' || c = '\n' || c = '\x0d' || c = '\x0b' || c = '\x0c'

/-- `str.strip()` on the character list of a string. -/
def pyStrip (cs : List Char) : List Char :=
  ((cs.dropWhile pySpace).reverse.dropWhile pySpace).reverse

/-- Numeric value of a list of ASCII digits. -/
def digitsVal (ds : List Char) : ℤ :=
  ds.foldl (fun a c => a * 10 + ((c.toNat - '0'.toNat : ℕ) : ℤ)) 0

/-- After the first digit of an `int()` literal: remaining characters are
digits, with single underscores allowed strictly between digits. -/
def intLitRest : List Char → Bool
  | [] => true
  | '_' :: rest =>
    match rest with
    | d :: rest2 => d.isDigit && intLitRest rest2
    | [] => false
  | c :: rest => c.isDigit && intLitRest rest

/-- Digit part of an `int()` literal: non-empty, starts with a digit,
underscores only between digits. -/
def intLitDigits : List Char → Bool
  | d :: rest => d.isDigit && intLitRest rest
  | [] => false

/-- Python `int(s)` on a string (src/main.py applies it to list/dict/string
components): optional surrounding whitespace, an optional sign, then
digits with optional single underscores between digits; anything else
raises `ValueError`.  (Unicode digits, which CPython also accepts, do not
occur in the claims and are not modelled.) -/
def pyIntOfStr (s : String) : Except PyErr ℤ :=
  let cs := pyStrip s.data
  let signed : ℤ × List Char :=
    match cs with
    | '+' :: rest => (1, rest)
    | '-' :: rest => (-1, rest)
    | _ => (1, cs)
  if intLitDigits signed.2 then
    .ok (signed.1 * digitsVal (signed.2.filter (fun c => c ≠ '_')))
  else .error (.valueError "invalid literal for int() with base 10")

/-- Python `int(v)` on an arbitrary value: ints pass through, bools become
0/1, floats truncate toward zero, strings parse as integer literals, and
every other type raises `TypeError`. -/
def pyInt : PyVal → Except PyErr ℤ
  | .int n => .ok n
  | .bool b => .ok (if b then 1 else 0)
  | .float q => .ok (Rate.ratTrunc q)
  | .str s => pyIntOfStr s
  | .none => .error (.typeError "int() argument must be a string, a bytes-like object or a real number, not NoneType")
  | .list _ => .error (.typeError "int() argument must be a string, a bytes-like object or a real number, not list")
  | .tuple _ => .error (.typeError "int() argument must be a string, a bytes-like object or a real number, not tuple")
  | .dict _ => .error (.typeError "int() argument must be a string, a bytes-like object or a real number, not dict")

/-- `re.findall(r"-?\d+", s)` (src/main.py line 50), returning the matched
integers: left-to-right non-overlapping maximal runs of ASCII digits, each
optionally preceded by a minus sign.  The fuel is the list length; every
recursive call is on a strictly shorter list. -/
def findIntsAux : Nat → List Char → List ℤ
  | 0, _ => []
  | _, [] => []
  | fuel+1, c :: cs =>
    if c.isDigit then
      digitsVal ((c :: cs).takeWhile Char.isDigit) ::
        findIntsAux fuel ((c :: cs).dropWhile Char.isDigit)
    else if c = '-' then
      match cs with
      | d :: cs2 =>
        if d.isDigit then
          (-digitsVal ((d :: cs2).takeWhile Char.isDigit)) ::
            findIntsAux fuel ((d :: cs2).dropWhile Char.isDigit)
        else findIntsAux fuel cs
      | [] => []
    else findIntsAux fuel cs

/-- The integers `re.findall(r"-?\d+", ·)` extracts from a character list. -/
def findInts (cs : List Char) : List ℤ := findIntsAux cs.length cs

/-- `re.findall(r'-?\\d+', value)` (src/main.py line 328): the pattern is a
raw string containing a double backslash, so the regex matches an optional
minus sign, a literal backslash, then one or more letters `d` — not
digits.  Returns the matched token texts. -/
def bsdAux : Nat → List Char → List String
  | 0, _ => []
  | _, [] => []
  | fuel+1, c :: cs =>
    if c = '\\' ∧ cs.head? = some 'd' then
      String.mk ('\\' :: cs.takeWhile (fun x => x = 'd')) ::
        bsdAux fuel (cs.dropWhile (fun x => x = 'd'))
    else if c = '-' ∧ cs.head? = some '\\' ∧ (cs.drop 1).head? = some 'd' then
      String.mk ('-' :: '\\' :: (cs.drop 1).takeWhile (fun x => x = 'd')) ::
        bsdAux fuel ((cs.drop 1).dropWhile (fun x => x = 'd'))
    else bsdAux fuel cs

/-- The token texts `re.findall(r'-?\\d+', ·)` extracts. -/
def bsdTokens (cs : List Char) : List String := bsdAux cs.length cs

end Py

namespace Py

/-- JSON whitespace (RFC 8259, as accepted by `json.loads`). -/
def jsonWs (c : Char) : Bool := c = ' ' || c = '\t' || c = '\n' || c = '\x0d'

/-- Hexadecimal digit value, for `\uXXXX` escapes. -/
def hexVal (c : Char) : Option Nat :=
  if '0' ≤ c ∧ c ≤ '9' then some (c.toNat - '0'.toNat)
  else if 'a' ≤ c ∧ c ≤ 'f' then some (c.toNat - 'a'.toNat + 10)
  else if 'A' ≤ c ∧ c ≤ 'F' then some (c.toNat - 'A'.toNat + 10)
  else Option.none

/-- JSON string literal body (after the opening quote), with the standard
escapes.  (`\uXXXX` surrogate pairs, which CPython recombines, are mapped
through `Char.ofNat`; such strings are never `int()`-coercible on either
side, so the difference is unobservable in the coercions.) -/
def parseJsonStringLit : Nat → List Char → Option (String × List Char)
  | 0, _ => Option.none
  | fuel+1, cs =>
    match cs with
    | [] => Option.none
    | '"' :: rest => some ("", rest)
    | '\\' :: e :: rest =>
      let esc : Option (Char × List Char) :=
        match e with
        | '"' => some ('"', rest)
        | '\\' => some ('\\', rest)
        | '/' => some ('/', rest)
        | 'b' => some ('\x08', rest)
        | 'f' => some ('\x0c', rest)
        | 'n' => some ('\n', rest)
        | 'r' => some ('\x0d', rest)
        | 't' => some ('\t', rest)
        | 'u' =>
          match rest with
          | h1 :: h2 :: h3 :: h4 :: rest2 =>
            match hexVal h1, hexVal h2, hexVal h3, hexVal h4 with
            | some a, some b, some c, some d =>
              some (Char.ofNat (((a * 16 + b) * 16 + c) * 16 + d), rest2)
            | _, _, _, _ => Option.none
          | _ => Option.none
        | _ => Option.none
      match esc with
      | some (c, r) =>
        match parseJsonStringLit fuel r with
        | some (s, r2) => some (String.mk (c :: s.data), r2)
        | Option.none => Option.none
      | Option.none => Option.none
    | c :: rest =>
      if c.toNat < 32 then Option.none
      else
        match parseJsonStringLit fuel rest with
        | some (s, r2) => some (String.mk (c :: s.data), r2)
        | Option.none => Option.none

/-- `2^1024`, the magnitude at which a decimal literal overflows a CPython
float, written as a literal so concrete parses evaluate. -/
def floatOverflowBound : ℕ :=
  179769313486231590772930519078902473361797697894230657273430081157732675805500963132708477322407536021120113879871393357658789768814416622492847430639474124377767893424865485276302219601246094119453082952085005768838150682342462881473913110540827237163350510684586298239947245938479716304835356329624224137216

/-- Exact power of ten, written to reduce by kernel evaluation. -/
def pow10 (e : ℤ) : ℚ :=
  if 0 ≤ e then ((10 : ℚ) ^ e.toNat) else 1 / ((10 : ℚ) ^ (-e).toNat)

/-- JSON number token, per the grammar `json.loads` uses:
`-?(0|[1-9]\d*)(\.\d+)?([eE][+-]?\d+)?`.  A number without fraction or
exponent becomes a Python int; otherwise a float, modelled as the exact
decimal rational.  Floats whose magnitude reaches `2^1024` overflow to
`inf` in CPython and make the later `int()` raise inside the swallowed
`try`, which is observationally the same as failing the parse, so the
parse declines them (likewise the non-standard `NaN`/`Infinity` literals). -/
def parseJsonNumber (cs : List Char) : Option (PyVal × List Char) :=
  let signed : Bool × List Char :=
    match cs with
    | '-' :: r => (true, r)
    | _ => (false, cs)
  match signed.2 with
  | [] => Option.none
  | d :: _ =>
    if ¬ d.isDigit then Option.none
    else
      let ip := signed.2.takeWhile Char.isDigit
      let r1 := signed.2.dropWhile Char.isDigit
      if d = '0' && ip.length != 1 then Option.none
      else
        let fracPart : List Char × List Char :=
          match r1 with
          | '.' :: fr =>
            if (fr.takeWhile Char.isDigit).length = 0 then ([], r1)
            else (fr.takeWhile Char.isDigit, fr.dropWhile Char.isDigit)
          | _ => ([], r1)
        let fr := fracPart.1
        let r2 := fracPart.2
        let expPart : Option ℤ × List Char :=
          match r2 with
          | e :: r3 =>
            if e = 'e' || e = 'E' then
              let se : ℤ × List Char :=
                match r3 with
                | '+' :: r4 => (1, r4)
                | '-' :: r4 => (-1, r4)
                | _ => (1, r3)
              if (se.2.takeWhile Char.isDigit).length = 0 then (Option.none, r2)
              else (some (se.1 * digitsVal (se.2.takeWhile Char.isDigit)),
                se.2.dropWhile Char.isDigit)
            else (Option.none, r2)
          | [] => (Option.none, r2)
        let isFloat := fr.length ≠ 0 ∨ expPart.1.isSome
        if isFloat then
          let mant : ℚ := (digitsVal ip : ℚ) + (digitsVal fr : ℚ) / pow10 fr.length
          let q0 : ℚ := mant * pow10 (expPart.1.getD 0)
          let q : ℚ := if signed.1 then -q0 else q0
          if q.num.natAbs < floatOverflowBound * q.den then some (.float q, expPart.2)
          else Option.none
        else some (.int (if signed.1 then -digitsVal ip else digitsVal ip), r1)

mutual

/-- A JSON value, as `json.loads` parses it after optional leading
whitespace: `null`/`true`/`false` literals, strings, arrays, objects, and
numbers, mapped onto the Python values they decode to. -/
def parseJson : Nat → List Char → Option (PyVal × List Char)
  | 0, _ => Option.none
  | fuel+1, cs0 =>
    let cs := cs0.dropWhile jsonWs
    match cs with
    | 'n' :: 'u' :: 'l' :: 'l' :: rest => some (.none, rest)
    | 't' :: 'r' :: 'u' :: 'e' :: rest => some (.bool true, rest)
    | 'f' :: 'a' :: 'l' :: 's' :: 'e' :: rest => some (.bool false, rest)
    | '"' :: rest =>
      match parseJsonStringLit (fuel+1) rest with
      | some (s, r) => some (.str s, r)
      | Option.none => Option.none
    | '[' :: rest =>
      match rest.dropWhile jsonWs with
      | ']' :: r2 => some (.list [], r2)
      | _ =>
        match parseJsonItems fuel rest with
        | some (vs, r) => some (.list vs, r)
        | Option.none => Option.none
    | '{' :: rest =>
      match rest.dropWhile jsonWs with
      | '}' :: r2 => some (.dict [], r2)
      | _ =>
        match parseJsonMembers fuel rest with
        | some (kvs, r) => some (.dict kvs, r)
        | Option.none => Option.none
    | _ => parseJsonNumber cs

/-- Comma-separated JSON array items up to the closing bracket. -/
def parseJsonItems : Nat → List Char → Option (List PyVal × List Char)
  | 0, _ => Option.none
  | fuel+1, cs =>
    match parseJson fuel cs with
    | Option.none => Option.none
    | some (v, rest) =>
      match rest.dropWhile jsonWs with
      | ',' :: r2 =>
        match parseJsonItems fuel r2 with
        | some (vs, r3) => some (v :: vs, r3)
        | Option.none => Option.none
      | ']' :: r2 => some ([v], r2)
      | _ => Option.none

/-- Comma-separated JSON object members up to the closing brace. -/
def parseJsonMembers : Nat → List Char → Option (List (String × PyVal) × List Char)
  | 0, _ => Option.none
  | fuel+1, cs =>
    match cs.dropWhile jsonWs with
    | '"' :: rest =>
      match parseJsonStringLit (fuel+1) rest with
      | Option.none => Option.none
      | some (k, r1) =>
        match r1.dropWhile jsonWs with
        | ':' :: r3 =>
          match parseJson fuel r3 with
          | Option.none => Option.none
          | some (v, r4) =>
            match r4.dropWhile jsonWs with
            | ',' :: r6 =>
              match parseJsonMembers fuel r6 with
              | some (kvs, r7) => some ((k, v) :: kvs, r7)
              | Option.none => Option.none
            | '}' :: r6 => some ([(k, v)], r6)
            | _ => Option.none
        | _ => Option.none
    | _ => Option.none

end

/-- `json.loads(s)`: parse one value, allow trailing whitespace, reject
trailing data.  The fuel `2*|s|+4` dominates the recursion depth, which
grows by at most two per consumed character. -/
def json_loads (s : String) : Option PyVal :=
  match parseJson (2 * s.length + 4) s.data with
  | some (v, rest) => if rest.dropWhile jsonWs = [] then some v else Option.none
  | Option.none => Option.none

end Py

namespace Py

/-- `s.startswith("[")` on the character list. -/
def startsWithBracket : List Char → Bool
  | '[' :: _ => true
  | _ => false

/-- `s.endswith("]")` on the character list. -/
def endsWithBracket (cs : List Char) : Bool :=
  match cs.getLast? with
  | some ']' => true
  | _ => false

/-- `int(value[0]), int(value[1])` applied to a pair of components, in
source order: the first failing `int()` raises. -/
def pair2 (a b : PyVal) : Except PyErr (ℤ × ℤ) :=
  match pyInt a with
  | .error e => .error e
  | .ok x =>
    match pyInt b with
    | .error e => .error e
    | .ok y => .ok (x, y)

/-- The `try: json.loads(s) ... except Exception: pass` block of
`_coerce_xy` (src/main.py lines 41-48), entered only for bracketed
strings: when the parse yields a two-element list whose components both
coerce with `int()`, that pair is returned; a parse failure, a non-list or
wrong-length result, or an `int()` exception all fall through (the
exception is swallowed by the bare `except`). -/
def jsonPairTry (cs : List Char) : Option (ℤ × ℤ) :=
  match parseJson (2 * cs.length + 4) cs with
  | some (v, rest) =>
    if rest.dropWhile jsonWs = [] then
      match v with
      | .list [a, b] =>
        match pair2 a b with
        | .ok p => some p
        | .error _ => Option.none
      | _ => Option.none
    else Option.none
  | Option.none => Option.none

/-- Failure message of `_coerce_xy` (src/main.py line 53). -/
def xyFailMsg : PyErr := .valueError "Location must be two integers [x,y]"

/-- The string branch of `_coerce_xy` (src/main.py lines 39-52): strip,
try the JSON path for bracketed strings, then fall back to
`re.findall(r"-?\d+", s)` and take the first two integers. -/
def coerce_xy_str (s0 : String) : Except PyErr (ℤ × ℤ) :=
  let cs := pyStrip s0.data
  let viaJson : Option (ℤ × ℤ) :=
    match startsWithBracket cs && endsWithBracket cs with
    | true => jsonPairTry cs
    | false => Option.none
  match viaJson with
  | some p => .ok p
  | Option.none =>
    match findInts cs with
    | x :: y :: _ => .ok (x, y)
    | _ => .error xyFailMsg

/-- `_coerce_xy` (src/main.py lines 23-53). -/
def coerce_xy (v : PyVal) : Except PyErr (ℤ × ℤ) :=
  match v with
  | .list [a, b] => pair2 a b
  | .tuple [a, b] => pair2 a b
  | .dict kvs =>
    match kvs.lookup "x", kvs.lookup "y" with
    | some a, some b => pair2 a b
    | _, _ => .error xyFailMsg
  | .str s => coerce_xy_str s
  | _ => .error xyFailMsg

/-- Failure message of `_coerce_wh` (src/main.py line 331). -/
def whFailMsg : PyErr := .valueError "size must be [w,h] or \x7bw,h\x7d"

/-- `_coerce_wh` (src/main.py lines 321-331): like `_coerce_xy` for `w`/`h`
dicts but with no strip, no JSON path, and the regex `r'-?\\d+'`, whose
double backslash matches a literal backslash followed by letters `d`; the
matched token texts are then passed to `int()`. -/
def coerce_wh (v : PyVal) : Except PyErr (ℤ × ℤ) :=
  match v with
  | .list [a, b] => pair2 a b
  | .tuple [a, b] => pair2 a b
  | .dict kvs =>
    match kvs.lookup "w", kvs.lookup "h" with
    | some a, some b => pair2 a b
    | _, _ => .error whFailMsg
  | .str s =>
    match bsdTokens s.data with
    | t1 :: t2 :: _ =>
      match pyIntOfStr t1 with
      | .error e => .error e
      | .ok x =>
        match pyIntOfStr t2 with
        | .error e => .error e
        | .ok y => .ok (x, y)
    | _ => .error whFailMsg
  | _ => .error whFailMsg

/-- Inputs matching none of the three accepted shapes of `_coerce_xy`:
non-container scalars, lists/tuples of length other than two, and dicts
missing `x` or `y`. -/
def xyShapeless (v : PyVal) : Bool :=
  match v with
  | .int _ => true
  | .float _ => true
  | .bool _ => true
  | .none => true
  | .list xs => xs.length != 2
  | .tuple xs => xs.length != 2
  | .dict kvs => (kvs.lookup "x").isNone || (kvs.lookup "y").isNone
  | .str _ => false

end Py

namespace Py

/-- C6 counterexample: a two-element list whose components `int()` rejects
does not return an integer pair, and the failure is a `TypeError` from
`int(value[0])`, not the claimed `ValueError`: `_coerce_xy([None, None])`
raises `TypeError`. -/
theorem C6_counterexample :
    coerce_xy (.list [.none, .none]) =
      .error (.typeError "int() argument must be a string, a bytes-like object or a real number, not NoneType") := rfl

/-- C6 (amended): `_coerce_xy` returns the integer pair for every
two-element list/tuple and every dict with `x` and `y` whose components
`int()` accepts (components `int()` rejects raise `int()`'s own error
instead); every string containing at least two (possibly signed) integers
yields an integer pair; a bracketed string JSON-parsing to a two-element
`int()`-coercible list yields a pair even with no integer substrings
(`'[true, false]'` gives `(1, 0)`); every non-bracketed string with fewer
than two integers and every other-shaped input raises
`ValueError("Location must be two integers [x,y]")`. -/
theorem C6_coerce_xy_characterized :
    (∀ (a b : PyVal) (x y : ℤ), pyInt a = .ok x → pyInt b = .ok y →
      coerce_xy (.list [a, b]) = .ok (x, y) ∧ coerce_xy (.tuple [a, b]) = .ok (x, y)) ∧
    (∀ (kvs : List (String × PyVal)) (a b : PyVal) (x y : ℤ),
      kvs.lookup "x" = some a → kvs.lookup "y" = some b →
      pyInt a = .ok x → pyInt b = .ok y → coerce_xy (.dict kvs) = .ok (x, y)) ∧
    (∀ s : String, 2 ≤ (findInts (pyStrip s.data)).length →
      ∃ p, coerce_xy (.str s) = .ok p) ∧
    (coerce_xy (.str "[true, false]") = .ok (1, 0)) ∧
    (∀ s : String, (findInts (pyStrip s.data)).length < 2 →
      (startsWithBracket (pyStrip s.data) && endsWithBracket (pyStrip s.data)) = false →
      coerce_xy (.str s) = .error xyFailMsg) ∧
    (∀ v : PyVal, xyShapeless v = true → coerce_xy v = .error xyFailMsg) := by
  refine ⟨?_, ?_, ?_, rfl, ?_, ?_⟩
  · intro a b x y h1 h2
    constructor <;> simp [coerce_xy, pair2, h1, h2]
  · intro kvs a b x y hx hy h1 h2
    simp [coerce_xy, hx, hy, pair2, h1, h2]
  · intro s hlen
    obtain ⟨x, y, t, hxyt⟩ : ∃ x y t, findInts (pyStrip s.data) = x :: y :: t := by
      match hl : findInts (pyStrip s.data) with
      | [] => rw [hl] at hlen; simp at hlen
      | [x] => rw [hl] at hlen; simp at hlen
      | x :: y :: t => exact ⟨x, y, t, rfl⟩
    rcases hb : startsWithBracket (pyStrip s.data) && endsWithBracket (pyStrip s.data) with _ | _
    · exact ⟨(x, y), by simp [coerce_xy, coerce_xy_str, hb, hxyt]⟩
    · rcases hjp : jsonPairTry (pyStrip s.data) with _ | p
      · exact ⟨(x, y), by simp [coerce_xy, coerce_xy_str, hb, hjp, hxyt]⟩
      · exact ⟨p, by simp [coerce_xy, coerce_xy_str, hb, hjp]⟩
  · intro s hlen hbr
    simp only [coerce_xy, coerce_xy_str, hbr]
    match hl : findInts (pyStrip s.data) with
    | [] => simp
    | [x] => simp
    | x :: y :: t =>
      rw [hl] at hlen
      simp only [List.length_cons] at hlen
      omega
  · intro v hv
    cases v with
    | int n => rfl
    | float q => rfl
    | bool b => rfl
    | none => rfl
    | str s => simp [xyShapeless] at hv
    | list xs =>
      match xs with
      | [] => rfl
      | [a] => rfl
      | [a, b] => simp [xyShapeless] at hv
      | a :: b :: c :: t => rfl
    | tuple xs =>
      match xs with
      | [] => rfl
      | [a] => rfl
      | [a, b] => simp [xyShapeless] at hv
      | a :: b :: c :: t => rfl
    | dict kvs =>
      simp only [xyShapeless, Bool.or_eq_true, Option.isNone_iff_eq_none] at hv
      rcases hv with h | h
      · simp [coerce_xy, h]
      · rcases hx : kvs.lookup "x" with _ | a
        · simp [coerce_xy, hx]
        · simp [coerce_xy, hx, h]

/-- Witness for C6: a two-element list and tuple of `int()`-coercible
components returns the coerced pair. -/
theorem C6_witness :
    coerce_xy (.list [.int 3, .str " 4 "]) = .ok (3, 4) ∧
    coerce_xy (.tuple [.int 3, .str " 4 "]) = .ok (3, 4) :=
  C6_coerce_xy_characterized.1 (.int 3) (.str " 4 ") 3 4 rfl rfl

end Py

namespace Py

/-- A backslash-free input yields no matches for the pattern `-?\\d+`:
every alternative of the regex requires a literal backslash. -/
lemma bsdAux_nil_of_no_backslash :
    ∀ (fuel : Nat) (cs : List Char), (∀ c ∈ cs, c ≠ '\\') → bsdAux fuel cs = [] := by
  intro fuel
  induction fuel with
  | zero => intro cs _; cases cs <;> rfl
  | succ f ih =>
    intro cs h
    match cs with
    | [] => rfl
    | c :: cs' =>
      have hc : c ≠ '\\' := h c (by simp)
      have h' : ∀ x ∈ cs', x ≠ '\\' := fun x hx => h x (by simp [hx])
      have h2 : cs'.head? ≠ some '\\' := by
        cases cs' with
        | nil => simp
        | cons d cs2 => simpa using h' d (by simp)
      unfold bsdAux
      rw [if_neg (by tauto), if_neg (by tauto)]
      exact ih cs' h'

/-- Character set of claim C9: digits, signs, commas, brackets, spaces. -/
def whClaimChar (c : Char) : Bool :=
  c.isDigit || c = '-' || c = '+' || c = ',' || c = '[' || c = ']' || c = ' '

/-- C9: because the `_coerce_wh` pattern `r'-?\\d+'` matches a literal
backslash followed by letters `d` rather than digits, every string built
from digits, signs, commas, brackets and spaces (e.g. "800,600" or
"[800,600]") raises `ValueError` in `_coerce_wh` — while `_coerce_xy`
accepts exactly those example strings for coordinates. -/
theorem C9_wh_numeric_strings_rejected :
    ∀ s : String, (∀ c ∈ s.data, whClaimChar c = true) →
    coerce_wh (.str s) = .error whFailMsg ∧
    coerce_xy (.str "800,600") = .ok (800, 600) ∧
    coerce_xy (.str "[800,600]") = .ok (800, 600) := by
  intro s h
  refine ⟨?_, rfl, rfl⟩
  have hnb : ∀ c ∈ s.data, c ≠ '\\' := by
    intro c hc hceq
    have hv := h c hc
    rw [hceq] at hv
    exact absurd hv (by decide)
  have ht : bsdTokens s.data = [] :=
    bsdAux_nil_of_no_backslash s.data.length s.data hnb
  simp [coerce_wh, ht]

/-- Witness for C9: the plain numeric size string "800,600" is rejected by
`_coerce_wh`. -/
theorem C9_witness :
    coerce_wh (.str "800,600") = .error whFailMsg :=
  (C9_wh_numeric_strings_rejected "800,600" (by decide)).1

end Py

namespace SendText

end SendText
